import Mathlib

/-!
Shallow embedding of the kitties pallet (`src/pallets/kitties/src/lib.rs`).

Machine integers are modelled as `Nat`; a `u8` value is a `Nat` together with
the side condition `< 256`, and the `u32` counter `NextKittyId` is a `Nat`
whose checked addition fails beyond `4294967295`.  The randomness collaborator
`random_value` (blake2_128 over the seed, the sender and the extrinsic index)
is external to the pallet, so each operation takes the 16 random bytes it
would produce as an explicit argument; determinism in those bytes is exactly
determinism in the seed, caller and extrinsic index.  Substrate storage is a
double map, modelled as a function `AccountId → Nat → Option Kitty` together
with the `Nat` counter.  Each dispatchable returns the emitted event (or the
`DispatchError`) together with the post-state; `try_mutate` rolls the counter
back on error, and every error path of `create`/`breed` happens before any
write, so the post-state on error is the pre-state.
-/

namespace Kitties

/-- `combine_dna` from the source: `(!selector & dna1) | (selector & dna2)`
on `u8`. The `u8` complement `!selector` is `selector ^^^ 255` on bytes. -/
def combine_dna (dna1 dna2 selector : Nat) : Nat :=
  ((selector ^^^ 255) &&& dna1) ||| (selector &&& dna2)

/-- `pub struct Kitty(pub [u8; 16])`: the 16 DNA bytes, as a list of `Nat`. -/
structure Kitty where
  dna : List Nat
deriving DecidableEq, Repr

/-- `pub enum KittyGender { Male, Female }`. -/
inductive KittyGender where
  | Male
  | Female
deriving DecidableEq, Repr

/-- `Kitty::gender`: the first byte of the DNA decides, even is `Male`. -/
def Kitty.gender (k : Kitty) : KittyGender :=
  if k.dna.headD 0 % 2 = 0 then KittyGender.Male else KittyGender.Female

/-- The three error kinds of `decl_error!`. -/
inductive KittyError where
  | KittiesIdOverflow
  | InvalidKittyId
  | SameGender
deriving DecidableEq, Repr

/-- The two events of `decl_event!`. -/
inductive KittyEvent (A : Type) where
  | KittyCreated (owner : A) (kitty_id : Nat) (kitty : Kitty)
  | KittyBred (owner : A) (kitty_id : Nat) (kitty : Kitty)
deriving DecidableEq

/-- Owner of an event. -/
def KittyEvent.owner {A : Type} : KittyEvent A → A
  | KittyEvent.KittyCreated o _ _ => o
  | KittyEvent.KittyBred o _ _ => o

/-- Kitty id carried by an event. -/
def KittyEvent.kittyId {A : Type} : KittyEvent A → Nat
  | KittyEvent.KittyCreated _ i _ => i
  | KittyEvent.KittyBred _ i _ => i

/-- Kitty carried by an event. -/
def KittyEvent.kitty {A : Type} : KittyEvent A → Kitty
  | KittyEvent.KittyCreated _ _ k => k
  | KittyEvent.KittyBred _ _ k => k

/-- The pallet's storage: the `Kitties` double map keyed by account and id,
and the `NextKittyId` counter. -/
structure KittiesState (A : Type) where
  kitties : A → Nat → Option Kitty
  nextKittyId : Nat

/-- Genesis storage: empty map, counter `0` (the `u32` default). -/
def initialState (A : Type) : KittiesState A :=
  { kitties := fun _ _ => none, nextKittyId := 0 }

/-- `u32::checked_add` on the `Nat` model of `u32`: `none` exactly when the
mathematical sum leaves the 32-bit range. -/
def checkedAddU32 (a b : Nat) : Option Nat :=
  if a + b ≤ 4294967295 then some (a + b) else none

/-- `get_next_kitty_id`: `try_mutate` reads the counter, bumps it with
`checked_add(1)`, and returns the old value; on overflow the error is
`KittiesIdOverflow` and the mutation is rolled back, leaving the state
untouched. -/
def get_next_kitty_id {A : Type} (s : KittiesState A) :
    Except KittyError Nat × KittiesState A :=
  match checkedAddU32 s.nextKittyId 1 with
  | none => (Except.error KittyError.KittiesIdOverflow, s)
  | some n => (Except.ok s.nextKittyId, { s with nextKittyId := n })

/-- `Kitties::<T>::insert(&sender, kitty_id, &kitty)` on the double map. -/
def insertKitty {A : Type} [DecidableEq A] (s : KittiesState A) (owner : A)
    (kitty_id : Nat) (k : Kitty) : KittiesState A :=
  { s with kitties := fun o i =>
      if o = owner ∧ i = kitty_id then some k else s.kitties o i }

/-- The `create` dispatchable.  `dna` stands for the 16 bytes produced by
`random_value(&sender)` in this call. -/
def create {A : Type} [DecidableEq A] (s : KittiesState A) (sender : A)
    (dna : List Nat) : Except KittyError (KittyEvent A) × KittiesState A :=
  match get_next_kitty_id s with
  | (Except.error e, s1) => (Except.error e, s1)
  | (Except.ok kitty_id, s1) =>
      let kitty : Kitty := ⟨dna⟩
      (Except.ok (KittyEvent.KittyCreated sender kitty_id kitty),
        insertKitty s1 sender kitty_id kitty)

/-- The byte loop of `breed`: `for i in 0..16 { new_dna[i] =
combine_dna(kitty1_dna[i], kitty2_dna[i], selector[i]) }`, as a
position-wise zip of the three byte lists. -/
def combineDnaList : List Nat → List Nat → List Nat → List Nat
  | d1 :: t1, d2 :: t2, sb :: t3 => combine_dna d1 d2 sb :: combineDnaList t1 t2 t3
  | _, _, _ => []

/-- The `breed` dispatchable.  `selector` stands for the 16 bytes produced by
`random_value(&sender)` in this call.  Lookups are keyed by `(sender, id)`;
the gender check precedes id allocation, exactly as in the source. -/
def breed {A : Type} [DecidableEq A] (s : KittiesState A) (sender : A)
    (kitty_id_1 kitty_id_2 : Nat) (selector : List Nat) :
    Except KittyError (KittyEvent A) × KittiesState A :=
  match s.kitties sender kitty_id_1 with
  | none => (Except.error KittyError.InvalidKittyId, s)
  | some kitty1 =>
    match s.kitties sender kitty_id_2 with
    | none => (Except.error KittyError.InvalidKittyId, s)
    | some kitty2 =>
      if kitty1.gender = kitty2.gender then (Except.error KittyError.SameGender, s)
      else
        match get_next_kitty_id s with
        | (Except.error e, s1) => (Except.error e, s1)
        | (Except.ok kitty_id, s1) =>
          let new_kitty : Kitty := ⟨combineDnaList kitty1.dna kitty2.dna selector⟩
          (Except.ok (KittyEvent.KittyBred sender kitty_id new_kitty),
            insertKitty s1 sender kitty_id new_kitty)

/-- One extrinsic: a `create` or a `breed` call together with the random
bytes its `random_value` call yields. -/
inductive Op (A : Type) where
  | create (sender : A) (dna : List Nat)
  | breed (sender : A) (kitty_id_1 kitty_id_2 : Nat) (selector : List Nat)

/-- Run one extrinsic against a state. -/
def runOp {A : Type} [DecidableEq A] (s : KittiesState A) :
    Op A → Except KittyError (KittyEvent A) × KittiesState A
  | Op.create sender dna => create s sender dna
  | Op.breed sender id1 id2 sel => breed s sender id1 id2 sel

/-- All extrinsics of the trace succeed when run in order. -/
def allOk {A : Type} [DecidableEq A] (s : KittiesState A) : List (Op A) → Bool
  | [] => true
  | op :: ops =>
    match runOp s op with
    | (Except.ok _, s1) => allOk s1 ops
    | (Except.error _, _) => false

/-- The kitty ids returned by the successful extrinsics of a trace, in order. -/
def issuedIds {A : Type} [DecidableEq A] (s : KittiesState A) :
    List (Op A) → List Nat
  | [] => []
  | op :: ops =>
    match runOp s op with
    | (Except.ok ev, s1) => ev.kittyId :: issuedIds s1 ops
    | (Except.error _, s1) => issuedIds s1 ops

/-- States reachable from genesis by running extrinsics. -/
inductive Reachable {A : Type} [DecidableEq A] : KittiesState A → Prop where
  | init : Reachable (initialState A)
  | step (s : KittiesState A) (op : Op A) : Reachable s → Reachable (runOp s op).2

/-- A concrete state whose counter sits at the `u32` maximum. -/
def maxIdState : KittiesState Nat :=
  { kitties := fun _ _ => none, nextKittyId := 4294967295 }

/-- A concrete state in which kitty id 0 exists but is owned by account 1. -/
def otherOwnerState : KittiesState Nat :=
  { kitties := fun o i =>
      if o = 1 ∧ i = 0 then some ⟨List.replicate 16 0⟩ else none,
    nextKittyId := 1 }

/-- A concrete state in which caller 0 owns kitty id 0. -/
def selfBreedState : KittiesState Nat :=
  { kitties := fun o i =>
      if o = 0 ∧ i = 0 then some ⟨List.replicate 16 2⟩ else none,
    nextKittyId := 1 }

/-- A concrete state in which caller 0 owns a male kitty (id 0, DNA bytes
all 2) and a female kitty (id 1, DNA bytes all 3), counter at 2. -/
def twoParentState : KittiesState Nat :=
  { kitties := fun o i =>
      if o = 0 ∧ i = 0 then some ⟨List.replicate 16 2⟩
      else if o = 0 ∧ i = 1 then some ⟨List.replicate 16 3⟩ else none,
    nextKittyId := 2 }

/-- A concrete trace: two creations with opposite first-byte parities,
then a breeding of the two. -/
def demoOps : List (Op Nat) :=
  [Op.create 0 (List.replicate 16 2), Op.create 0 (List.replicate 16 3),
    Op.breed 0 0 1 (List.replicate 16 0)]

/-- The execution of one extrinsic as a step relation: one constructor per
control path of `create` and `breed` in the source (allocator success and
overflow for `create`; first lookup missing, second lookup missing, equal
genders, allocator overflow, and full success for `breed`). -/
inductive OpStep {A : Type} [DecidableEq A] :
    KittiesState A → Op A → Except KittyError (KittyEvent A) × KittiesState A → Prop where
  | createOk (s : KittiesState A) (sender : A) (dna : List Nat) (c : Nat)
      (s1 : KittiesState A) (hn : get_next_kitty_id s = (Except.ok c, s1)) :
      OpStep s (Op.create sender dna)
        (Except.ok (KittyEvent.KittyCreated sender c ⟨dna⟩),
          insertKitty s1 sender c ⟨dna⟩)
  | createOverflow (s : KittiesState A) (sender : A) (dna : List Nat)
      (e : KittyError) (s1 : KittiesState A)
      (hn : get_next_kitty_id s = (Except.error e, s1)) :
      OpStep s (Op.create sender dna) (Except.error e, s1)
  | breedMissing1 (s : KittiesState A) (sender : A) (id1 id2 : Nat)
      (sel : List Nat) (h1 : s.kitties sender id1 = none) :
      OpStep s (Op.breed sender id1 id2 sel)
        (Except.error KittyError.InvalidKittyId, s)
  | breedMissing2 (s : KittiesState A) (sender : A) (id1 id2 : Nat)
      (sel : List Nat) (k1 : Kitty) (h1 : s.kitties sender id1 = some k1)
      (h2 : s.kitties sender id2 = none) :
      OpStep s (Op.breed sender id1 id2 sel)
        (Except.error KittyError.InvalidKittyId, s)
  | breedSameGender (s : KittiesState A) (sender : A) (id1 id2 : Nat)
      (sel : List Nat) (k1 k2 : Kitty) (h1 : s.kitties sender id1 = some k1)
      (h2 : s.kitties sender id2 = some k2) (hg : k1.gender = k2.gender) :
      OpStep s (Op.breed sender id1 id2 sel)
        (Except.error KittyError.SameGender, s)
  | breedOverflow (s : KittiesState A) (sender : A) (id1 id2 : Nat)
      (sel : List Nat) (k1 k2 : Kitty) (e : KittyError) (s1 : KittiesState A)
      (h1 : s.kitties sender id1 = some k1) (h2 : s.kitties sender id2 = some k2)
      (hg : ¬ k1.gender = k2.gender)
      (hn : get_next_kitty_id s = (Except.error e, s1)) :
      OpStep s (Op.breed sender id1 id2 sel) (Except.error e, s1)
  | breedOk (s : KittiesState A) (sender : A) (id1 id2 : Nat)
      (sel : List Nat) (k1 k2 : Kitty) (c : Nat) (s1 : KittiesState A)
      (h1 : s.kitties sender id1 = some k1) (h2 : s.kitties sender id2 = some k2)
      (hg : ¬ k1.gender = k2.gender)
      (hn : get_next_kitty_id s = (Except.ok c, s1)) :
      OpStep s (Op.breed sender id1 id2 sel)
        (Except.ok (KittyEvent.KittyBred sender c
            ⟨combineDnaList k1.dna k2.dna sel⟩),
          insertKitty s1 sender c ⟨combineDnaList k1.dna k2.dna sel⟩)

/-! Helper lemmas characterising each code path of the three functions. -/

/-- When the counter can be bumped, the allocator returns the old counter and
advances it by one. -/
theorem get_next_kitty_id_bump {A : Type} (s : KittiesState A)
    (hc : s.nextKittyId + 1 ≤ 4294967295) :
    get_next_kitty_id s =
      (Except.ok s.nextKittyId, { s with nextKittyId := s.nextKittyId + 1 }) := by
  simp [get_next_kitty_id, checkedAddU32, hc]

/-- When the bump would overflow, the allocator fails and leaves the state
untouched. -/
theorem get_next_kitty_id_stuck {A : Type} (s : KittiesState A)
    (hc : ¬ s.nextKittyId + 1 ≤ 4294967295) :
    get_next_kitty_id s = (Except.error KittyError.KittiesIdOverflow, s) := by
  simp [get_next_kitty_id, checkedAddU32, hc]

/-- `create` on a bumpable counter: event and insert at the old counter. -/
theorem create_succeeds {A : Type} [DecidableEq A] (s : KittiesState A)
    (sender : A) (dna : List Nat) (hc : s.nextKittyId + 1 ≤ 4294967295) :
    create s sender dna =
      (Except.ok (KittyEvent.KittyCreated sender s.nextKittyId ⟨dna⟩),
        insertKitty { s with nextKittyId := s.nextKittyId + 1 } sender
          s.nextKittyId ⟨dna⟩) := by
  unfold create
  rw [get_next_kitty_id_bump s hc]

/-- `create` on a saturated counter: overflow error, no state change. -/
theorem create_fails {A : Type} [DecidableEq A] (s : KittiesState A)
    (sender : A) (dna : List Nat) (hc : ¬ s.nextKittyId + 1 ≤ 4294967295) :
    create s sender dna = (Except.error KittyError.KittiesIdOverflow, s) := by
  unfold create
  rw [get_next_kitty_id_stuck s hc]

/-- `breed` with a missing parent lookup: `InvalidKittyId`, no state change. -/
theorem breed_none {A : Type} [DecidableEq A] (s : KittiesState A) (sender : A)
    (id1 id2 : Nat) (sel : List Nat)
    (h : s.kitties sender id1 = none ∨ s.kitties sender id2 = none) :
    breed s sender id1 id2 sel = (Except.error KittyError.InvalidKittyId, s) := by
  unfold breed
  rcases h with h | h
  · rw [h]
  · cases h1 : s.kitties sender id1 with
    | none => rfl
    | some k1 => rw [h]

/-- `breed` with two parents of equal gender: `SameGender`, no state change. -/
theorem breed_equal_gender {A : Type} [DecidableEq A] (s : KittiesState A)
    (sender : A) (id1 id2 : Nat) (sel : List Nat) (k1 k2 : Kitty)
    (h1 : s.kitties sender id1 = some k1) (h2 : s.kitties sender id2 = some k2)
    (hg : k1.gender = k2.gender) :
    breed s sender id1 id2 sel = (Except.error KittyError.SameGender, s) := by
  unfold breed
  simp only [h1, h2]
  rw [if_pos hg]

/-- `breed` past the gender check with a saturated counter: overflow error,
no state change. -/
theorem breed_alloc_fails {A : Type} [DecidableEq A] (s : KittiesState A)
    (sender : A) (id1 id2 : Nat) (sel : List Nat) (k1 k2 : Kitty)
    (h1 : s.kitties sender id1 = some k1) (h2 : s.kitties sender id2 = some k2)
    (hg : ¬ k1.gender = k2.gender) (hc : ¬ s.nextKittyId + 1 ≤ 4294967295) :
    breed s sender id1 id2 sel = (Except.error KittyError.KittiesIdOverflow, s) := by
  unfold breed
  simp only [h1, h2]
  rw [if_neg hg, get_next_kitty_id_stuck s hc]

/-- `breed` on the success path: the child kitty is the byte-wise combination
of the parents under the selector, stored at `(sender, old counter)`. -/
theorem breed_succeeds {A : Type} [DecidableEq A] (s : KittiesState A)
    (sender : A) (id1 id2 : Nat) (sel : List Nat) (k1 k2 : Kitty)
    (h1 : s.kitties sender id1 = some k1) (h2 : s.kitties sender id2 = some k2)
    (hg : ¬ k1.gender = k2.gender) (hc : s.nextKittyId + 1 ≤ 4294967295) :
    breed s sender id1 id2 sel =
      (Except.ok (KittyEvent.KittyBred sender s.nextKittyId
          ⟨combineDnaList k1.dna k2.dna sel⟩),
        insertKitty { s with nextKittyId := s.nextKittyId + 1 } sender
          s.nextKittyId ⟨combineDnaList k1.dna k2.dna sel⟩) := by
  unfold breed
  simp only [h1, h2]
  rw [if_neg hg, get_next_kitty_id_bump s hc]

/-! Theorems for the claims -/

/-- C1: `combine_dna(p1, p2, sel)` takes each bit from `p1` where the
selector bit is `0` and from `p2` where it is `1`, for all bytes; and
`combine_dna 0b10101010 0b01010101 0b11110000 = 0b01011010`. -/
theorem combine_dna_is_bit_multiplexer :
    (∀ p1 p2 sel : Nat, p1 < 256 → p2 < 256 → sel < 256 → ∀ i : Nat,
      (combine_dna p1 p2 sel).testBit i =
        if sel.testBit i then p2.testBit i else p1.testBit i)
    ∧ combine_dna 0b10101010 0b01010101 0b11110000 = 0b01011010 := by
  constructor
  · intro p1 p2 sel h1 h2 h3 i
    have h255 : (255 : Nat) = 2 ^ 8 - 1 := by norm_num
    by_cases hi : i < 8
    · simp only [combine_dna, Nat.testBit_or, Nat.testBit_and, Nat.testBit_xor,
        h255, Nat.testBit_two_pow_sub_one, hi, decide_True]
      cases sel.testBit i <;> cases p1.testBit i <;> cases p2.testBit i <;> simp
    · have hpow : (256 : Nat) ≤ 2 ^ i := by
        calc (256 : Nat) = 2 ^ 8 := by norm_num
        _ ≤ 2 ^ i := Nat.pow_le_pow_right (by norm_num) (Nat.le_of_not_lt hi)
      have hb1 : p1.testBit i = false := Nat.testBit_lt_two_pow (lt_of_lt_of_le h1 hpow)
      have hb2 : p2.testBit i = false := Nat.testBit_lt_two_pow (lt_of_lt_of_le h2 hpow)
      have hb3 : sel.testBit i = false := Nat.testBit_lt_two_pow (lt_of_lt_of_le h3 hpow)
      simp [combine_dna, Nat.testBit_or, Nat.testBit_and, hb1, hb2, hb3]
  · decide

/-- C1 witness: the bit rule evaluated at the bytes of the spec's example,
bit position 4. -/
theorem combine_dna_is_bit_multiplexer_witness :
    (170 : Nat) < 256 ∧ (85 : Nat) < 256 ∧ (240 : Nat) < 256 ∧
      (combine_dna 170 85 240).testBit 4 =
        if (240 : Nat).testBit 4 then (85 : Nat).testBit 4 else (170 : Nat).testBit 4 :=
  ⟨by decide, by decide, by decide,
    combine_dna_is_bit_multiplexer.1 170 85 240 (by decide) (by decide) (by decide) 4⟩

/-- C7: gender is the pure function of the first DNA byte, even is `Male`,
odd is `Female`; a genome starting with `0x02` is `Male`, with `0x03`
`Female`. -/
theorem gender_is_first_byte_parity :
    (∀ (b : Nat) (rest : List Nat),
      (Kitty.mk (b :: rest)).gender =
        if b % 2 = 0 then KittyGender.Male else KittyGender.Female)
    ∧ (Kitty.mk (0x02 :: List.replicate 15 0)).gender = KittyGender.Male
    ∧ (Kitty.mk (0x03 :: List.replicate 15 0)).gender = KittyGender.Female := by
  refine ⟨fun b rest => ?_, by decide, by decide⟩
  simp [Kitty.gender, List.headD]

/-- C4: allocation reads the counter `c` and computes `c + 1` with checked
32-bit arithmetic: at the maximum `u32` value it fails with
`KittiesIdOverflow` leaving the counter at `c`; otherwise it advances the
counter to `c + 1` and returns `c`. -/
theorem get_next_kitty_id_checked {A : Type} (s : KittiesState A) :
    (s.nextKittyId = 4294967295 →
      get_next_kitty_id s = (Except.error KittyError.KittiesIdOverflow, s))
    ∧ (s.nextKittyId < 4294967295 →
      get_next_kitty_id s =
        (Except.ok s.nextKittyId, { s with nextKittyId := s.nextKittyId + 1 })) := by
  constructor
  · intro h
    simp [get_next_kitty_id, checkedAddU32, h]
  · intro h
    have hb : s.nextKittyId + 1 ≤ 4294967295 := by omega
    simp [get_next_kitty_id, checkedAddU32, hb]

/-- C4 witness: the allocator evaluated at a counter at the maximum and at
genesis. -/
theorem get_next_kitty_id_checked_witness :
    (get_next_kitty_id maxIdState =
      (Except.error KittyError.KittiesIdOverflow, maxIdState))
    ∧ (get_next_kitty_id (initialState Nat) =
        (Except.ok 0, { initialState Nat with nextKittyId := 1 })) :=
  ⟨(get_next_kitty_id_checked _).1 rfl, (get_next_kitty_id_checked _).2 (by decide)⟩

/-- C2: every failing run of `create` or `breed` (any of the three error
kinds) leaves the whole state unchanged — no counter advance, no record
written — and in particular the counter equals its pre-call value; no event
is emitted since the result carries the error instead of an event. -/
theorem failed_run_leaves_state_unchanged {A : Type} [DecidableEq A]
    (s : KittiesState A) (op : Op A) (e : KittyError)
    (h : (runOp s op).1 = Except.error e) :
    (runOp s op).2 = s ∧ (runOp s op).2.nextKittyId = s.nextKittyId := by
  have hs : (runOp s op).2 = s := by
    cases op with
    | create sender dna =>
      simp only [runOp] at h ⊢
      by_cases hc : s.nextKittyId + 1 ≤ 4294967295
      · rw [create_succeeds s sender dna hc] at h
        exact absurd h (by simp)
      · rw [create_fails s sender dna hc]
    | breed sender id1 id2 sel =>
      simp only [runOp] at h ⊢
      rcases hk1 : s.kitties sender id1 with _ | k1
      · rw [breed_none s sender id1 id2 sel (Or.inl hk1)]
      · rcases hk2 : s.kitties sender id2 with _ | k2
        · rw [breed_none s sender id1 id2 sel (Or.inr hk2)]
        · by_cases hg : k1.gender = k2.gender
          · rw [breed_equal_gender s sender id1 id2 sel k1 k2 hk1 hk2 hg]
          · by_cases hc : s.nextKittyId + 1 ≤ 4294967295
            · rw [breed_succeeds s sender id1 id2 sel k1 k2 hk1 hk2 hg hc] at h
              exact absurd h (by simp)
            · rw [breed_alloc_fails s sender id1 id2 sel k1 k2 hk1 hk2 hg hc]
  exact ⟨hs, by rw [hs]⟩

/-- C2 witness: breeding two nonexistent kitties from genesis fails with
`InvalidKittyId` and returns the genesis state unchanged. -/
theorem failed_run_leaves_state_unchanged_witness :
    (runOp (initialState Nat) (Op.breed 0 0 1 (List.replicate 16 0))).1 =
        Except.error KittyError.InvalidKittyId ∧
      (runOp (initialState Nat) (Op.breed 0 0 1 (List.replicate 16 0))).2 =
        initialState Nat :=
  ⟨rfl, (failed_run_leaves_state_unchanged (initialState Nat)
    (Op.breed 0 0 1 (List.replicate 16 0)) KittyError.InvalidKittyId rfl).1⟩

/-- C6: `breed` fails with `InvalidKittyId` whenever either `(caller, id1)`
or `(caller, id2)` is absent from the double map — lookup is keyed by the
caller, so an id stored under a different owner is absent for this caller
and indistinguishable from a nonexistent one. -/
theorem breed_fails_on_missing_parent {A : Type} [DecidableEq A]
    (s : KittiesState A) (sender : A) (id1 id2 : Nat) (sel : List Nat)
    (h : s.kitties sender id1 = none ∨ s.kitties sender id2 = none) :
    breed s sender id1 id2 sel = (Except.error KittyError.InvalidKittyId, s) :=
  breed_none s sender id1 id2 sel h

/-- C6 witness: id 0 exists under owner 1, yet caller 0 breeding `(0, 0)`
gets `InvalidKittyId` with the state unchanged. -/
theorem breed_fails_on_missing_parent_witness :
    otherOwnerState.kitties 1 0 = some ⟨List.replicate 16 0⟩ ∧
      breed otherOwnerState 0 0 0 (List.replicate 16 1) =
        (Except.error KittyError.InvalidKittyId, otherOwnerState) :=
  ⟨rfl, breed_fails_on_missing_parent otherOwnerState 0 0 0
    (List.replicate 16 1) (Or.inl rfl)⟩

/-- C10: breeding a kitty with itself always fails with `SameGender` — both
lookups return the same kitty, whose gender equals itself — and the state is
unchanged. -/
theorem breed_self_fails_same_gender {A : Type} [DecidableEq A]
    (s : KittiesState A) (sender : A) (id : Nat) (k : Kitty) (sel : List Nat)
    (h : s.kitties sender id = some k) :
    breed s sender id id sel = (Except.error KittyError.SameGender, s) :=
  breed_equal_gender s sender id id sel k k h h rfl

/-- C10 witness: caller 0 breeding kitty 0 with itself fails with
`SameGender` and leaves the state unchanged. -/
theorem breed_self_fails_same_gender_witness :
    selfBreedState.kitties 0 0 = some ⟨List.replicate 16 2⟩ ∧
      breed selfBreedState 0 0 0 (List.replicate 16 7) =
        (Except.error KittyError.SameGender, selfBreedState) :=
  ⟨rfl, breed_self_fails_same_gender selfBreedState 0 0
    ⟨List.replicate 16 2⟩ (List.replicate 16 7) rfl⟩

/-- A successful extrinsic returns the pre-state's counter as the new kitty
id and advances the counter by one. -/
theorem runOp_ok_id {A : Type} [DecidableEq A] (s : KittiesState A) (op : Op A)
    (ev : KittyEvent A) (h : (runOp s op).1 = Except.ok ev) :
    ev.kittyId = s.nextKittyId ∧
      (runOp s op).2.nextKittyId = s.nextKittyId + 1 := by
  cases op with
  | create sender dna =>
    simp only [runOp] at h ⊢
    by_cases hc : s.nextKittyId + 1 ≤ 4294967295
    · rw [create_succeeds s sender dna hc] at h ⊢
      simp only [Except.ok.injEq] at h
      subst h
      exact ⟨rfl, rfl⟩
    · rw [create_fails s sender dna hc] at h
      exact absurd h (by simp)
  | breed sender id1 id2 sel =>
    simp only [runOp] at h ⊢
    rcases hk1 : s.kitties sender id1 with _ | k1
    · rw [breed_none s sender id1 id2 sel (Or.inl hk1)] at h
      exact absurd h (by simp)
    · rcases hk2 : s.kitties sender id2 with _ | k2
      · rw [breed_none s sender id1 id2 sel (Or.inr hk2)] at h
        exact absurd h (by simp)
      · by_cases hg : k1.gender = k2.gender
        · rw [breed_equal_gender s sender id1 id2 sel k1 k2 hk1 hk2 hg] at h
          exact absurd h (by simp)
        · by_cases hc : s.nextKittyId + 1 ≤ 4294967295
          · rw [breed_succeeds s sender id1 id2 sel k1 k2 hk1 hk2 hg hc] at h ⊢
            simp only [Except.ok.injEq] at h
            subst h
            exact ⟨rfl, rfl⟩
          · rw [breed_alloc_fails s sender id1 id2 sel k1 k2 hk1 hk2 hg hc] at h
            exact absurd h (by simp)

/-- A trace of successful extrinsics issues the counter values consecutively
from the starting counter. -/
theorem issuedIds_allOk {A : Type} [DecidableEq A] (ops : List (Op A)) :
    ∀ s : KittiesState A, allOk s ops = true →
      issuedIds s ops = List.range' s.nextKittyId ops.length := by
  induction ops with
  | nil => intro s _; rfl
  | cons op ops ih =>
    intro s h
    rcases hr : runOp s op with ⟨r, s1⟩
    simp only [allOk, hr] at h
    cases r with
    | error e => exact absurd h (by simp)
    | ok ev =>
      have hid := runOp_ok_id s op ev (by rw [hr])
      rw [hr] at hid
      simp only [issuedIds, hr, List.length_cons, List.range'_succ]
      rw [hid.1, ih s1 h, hid.2]

/-- C3: starting from genesis, a trace of successful operations returns the
identifiers `0, 1, 2, ...` in order — strictly increasing, gap-free,
repeat-free, starting at 0. -/
theorem issued_ids_are_initial_segment {A : Type} [DecidableEq A]
    (ops : List (Op A)) (h : allOk (initialState A) ops = true) :
    issuedIds (initialState A) ops = List.range ops.length := by
  rw [List.range_eq_range']
  exact issuedIds_allOk ops (initialState A) h

/-- C3 witness: the three-step demo trace succeeds and issues ids 0, 1, 2. -/
theorem issued_ids_are_initial_segment_witness :
    allOk (initialState Nat) demoOps = true ∧
      issuedIds (initialState Nat) demoOps = List.range 3 :=
  ⟨by decide, issued_ids_are_initial_segment demoOps (by decide)⟩

/-- The byte loop applies `combine_dna` at every position within range. -/
theorem combineDnaList_getD (l1 l2 l3 : List Nat) (i : Nat)
    (ha : i < l1.length) (hb : i < l2.length) (hc : i < l3.length) :
    (combineDnaList l1 l2 l3).getD i 0 =
      combine_dna (l1.getD i 0) (l2.getD i 0) (l3.getD i 0) := by
  induction l1 generalizing l2 l3 i with
  | nil => simp at ha
  | cons a t1 ih =>
    cases l2 with
    | nil => simp at hb
    | cons b t2 =>
      cases l3 with
      | nil => simp at hc
      | cons c t3 =>
        cases i with
        | zero => rfl
        | succ n =>
          simp only [combineDnaList, List.getD_cons_succ]
          refine ih t2 t3 n ?_ ?_ ?_
          · simp only [List.length_cons] at ha; omega
          · simp only [List.length_cons] at hb; omega
          · simp only [List.length_cons] at hc; omega

/-- C5: a successful `breed` of stored parents `k1`, `k2` stores, at
`(caller, old counter)`, exactly the byte-wise `combine_dna` combination of
the parents' DNA under the call's selector, and the `KittyBred` event
carries that same child; each of the 16 byte positions obeys the
`combine_dna` equation. -/
theorem breed_child_is_combined {A : Type} [DecidableEq A]
    (s : KittiesState A) (sender : A) (id1 id2 : Nat) (sel : List Nat)
    (k1 k2 : Kitty) (ev : KittyEvent A)
    (h1 : s.kitties sender id1 = some k1) (h2 : s.kitties sender id2 = some k2)
    (h : (breed s sender id1 id2 sel).1 = Except.ok ev) :
    ev = KittyEvent.KittyBred sender s.nextKittyId
        ⟨combineDnaList k1.dna k2.dna sel⟩ ∧
      (breed s sender id1 id2 sel).2.kitties sender s.nextKittyId =
        some ⟨combineDnaList k1.dna k2.dna sel⟩ ∧
      (k1.dna.length = 16 → k2.dna.length = 16 → sel.length = 16 →
        ∀ i, i < 16 →
          (combineDnaList k1.dna k2.dna sel).getD i 0 =
            combine_dna (k1.dna.getD i 0) (k2.dna.getD i 0) (sel.getD i 0)) := by
  by_cases hg : k1.gender = k2.gender
  · rw [breed_equal_gender s sender id1 id2 sel k1 k2 h1 h2 hg] at h
    exact absurd h (by simp)
  by_cases hc : s.nextKittyId + 1 ≤ 4294967295
  · rw [breed_succeeds s sender id1 id2 sel k1 k2 h1 h2 hg hc] at h ⊢
    simp only [Except.ok.injEq] at h
    subst h
    refine ⟨rfl, ?_, ?_⟩
    · simp [insertKitty]
    · intro hl1 hl2 hl3 i hi
      exact combineDnaList_getD k1.dna k2.dna sel i (by omega) (by omega) (by omega)
  · rw [breed_alloc_fails s sender id1 id2 sel k1 k2 h1 h2 hg hc] at h
    exact absurd h (by simp)

/-- C5 witness: breeding the two stored parents of `twoParentState` under an
all-`0xF0` selector emits and stores the combined child at id 2. -/
theorem breed_child_is_combined_witness :
    (breed twoParentState 0 0 1 (List.replicate 16 240)).1 =
        Except.ok (KittyEvent.KittyBred 0 2
          ⟨combineDnaList (List.replicate 16 2) (List.replicate 16 3)
            (List.replicate 16 240)⟩) ∧
      (breed twoParentState 0 0 1 (List.replicate 16 240)).2.kitties 0 2 =
        some ⟨combineDnaList (List.replicate 16 2) (List.replicate 16 3)
          (List.replicate 16 240)⟩ :=
  ⟨rfl,
    (breed_child_is_combined twoParentState 0 0 1 (List.replicate 16 240)
      ⟨List.replicate 16 2⟩ ⟨List.replicate 16 3⟩
      (KittyEvent.KittyBred 0 2
        ⟨combineDnaList (List.replicate 16 2) (List.replicate 16 3)
          (List.replicate 16 240)⟩) rfl rfl rfl).2.1⟩

/-- Every run either leaves the state unchanged or bumps the counter and
inserts one kitty at `(sender, old counter)`. -/
theorem runOp_state_shape {A : Type} [DecidableEq A] (s : KittiesState A)
    (op : Op A) :
    (runOp s op).2 = s ∨
      ∃ (sender : A) (k : Kitty), s.nextKittyId + 1 ≤ 4294967295 ∧
        (runOp s op).2 =
          insertKitty { s with nextKittyId := s.nextKittyId + 1 } sender
            s.nextKittyId k := by
  cases op with
  | create sender dna =>
    simp only [runOp]
    by_cases hc : s.nextKittyId + 1 ≤ 4294967295
    · exact Or.inr ⟨sender, ⟨dna⟩, hc, by rw [create_succeeds s sender dna hc]⟩
    · exact Or.inl (by rw [create_fails s sender dna hc])
  | breed sender id1 id2 sel =>
    simp only [runOp]
    rcases hk1 : s.kitties sender id1 with _ | k1
    · exact Or.inl (by rw [breed_none s sender id1 id2 sel (Or.inl hk1)])
    · rcases hk2 : s.kitties sender id2 with _ | k2
      · exact Or.inl (by rw [breed_none s sender id1 id2 sel (Or.inr hk2)])
      · by_cases hg : k1.gender = k2.gender
        · exact Or.inl
            (by rw [breed_equal_gender s sender id1 id2 sel k1 k2 hk1 hk2 hg])
        · by_cases hc : s.nextKittyId + 1 ≤ 4294967295
          · exact Or.inr ⟨sender, ⟨combineDnaList k1.dna k2.dna sel⟩, hc,
              by rw [breed_succeeds s sender id1 id2 sel k1 k2 hk1 hk2 hg hc]⟩
          · exact Or.inl
              (by rw [breed_alloc_fails s sender id1 id2 sel k1 k2 hk1 hk2 hg hc])

/-- In every reachable state, ids at or above the counter are unallocated
for every owner. -/
theorem reachable_no_future_ids {A : Type} [DecidableEq A]
    (s : KittiesState A) (hs : Reachable s) :
    ∀ (o : A) (i : Nat), s.nextKittyId ≤ i → s.kitties o i = none := by
  induction hs with
  | init => intro o i _; rfl
  | step s op _ ih =>
    intro o i hi
    rcases runOp_state_shape s op with h | ⟨sender, k, _, h⟩
    · rw [h] at hi ⊢
      exact ih o i hi
    · rw [h] at hi ⊢
      simp only [insertKitty] at hi ⊢
      have hbump : s.nextKittyId + 1 ≤ i := hi
      have hne : ¬(o = sender ∧ i = s.nextKittyId) := by
        rintro ⟨_, rfl⟩; omega
      rw [if_neg hne]
      exact ih o i (by omega)

/-- C8: a successful run from a reachable state writes exactly one new
record, at the key `(caller, freshly allocated id)` — a key unoccupied
before the call — and leaves every other key, in particular both parent
records of a breed, exactly as it was. -/
theorem successful_run_writes_one_fresh_record {A : Type} [DecidableEq A]
    (s : KittiesState A) (hs : Reachable s) (op : Op A) (ev : KittyEvent A)
    (h : (runOp s op).1 = Except.ok ev) :
    (runOp s op).2.kitties ev.owner ev.kittyId = some ev.kitty ∧
      s.kitties ev.owner ev.kittyId = none ∧
      ∀ (o : A) (i : Nat), ¬(o = ev.owner ∧ i = ev.kittyId) →
        (runOp s op).2.kitties o i = s.kitties o i := by
  cases op with
  | create sender dna =>
    simp only [runOp] at h ⊢
    by_cases hc : s.nextKittyId + 1 ≤ 4294967295
    · rw [create_succeeds s sender dna hc] at h ⊢
      simp only [Except.ok.injEq] at h
      subst h
      refine ⟨by simp [insertKitty, KittyEvent.owner, KittyEvent.kittyId,
        KittyEvent.kitty], ?_, ?_⟩
      · exact reachable_no_future_ids s hs sender s.nextKittyId (le_refl _)
      · intro o i hne
        simp only [KittyEvent.owner, KittyEvent.kittyId] at hne
        simp [insertKitty, hne]
    · rw [create_fails s sender dna hc] at h
      exact absurd h (by simp)
  | breed sender id1 id2 sel =>
    simp only [runOp] at h ⊢
    rcases hk1 : s.kitties sender id1 with _ | k1
    · rw [breed_none s sender id1 id2 sel (Or.inl hk1)] at h
      exact absurd h (by simp)
    · rcases hk2 : s.kitties sender id2 with _ | k2
      · rw [breed_none s sender id1 id2 sel (Or.inr hk2)] at h
        exact absurd h (by simp)
      · by_cases hg : k1.gender = k2.gender
        · rw [breed_equal_gender s sender id1 id2 sel k1 k2 hk1 hk2 hg] at h
          exact absurd h (by simp)
        · by_cases hc : s.nextKittyId + 1 ≤ 4294967295
          · rw [breed_succeeds s sender id1 id2 sel k1 k2 hk1 hk2 hg hc] at h ⊢
            simp only [Except.ok.injEq] at h
            subst h
            refine ⟨by simp [insertKitty, KittyEvent.owner, KittyEvent.kittyId,
              KittyEvent.kitty], ?_, ?_⟩
            · exact reachable_no_future_ids s hs sender s.nextKittyId (le_refl _)
            · intro o i hne
              simp only [KittyEvent.owner, KittyEvent.kittyId] at hne
              simp [insertKitty, hne]
          · rw [breed_alloc_fails s sender id1 id2 sel k1 k2 hk1 hk2 hg hc] at h
            exact absurd h (by simp)

/-- C8 witness: creating from genesis writes the new record at `(0, 0)`,
which was unoccupied, and an unrelated key `(3, 7)` is unchanged. -/
theorem successful_run_writes_one_fresh_record_witness :
    (runOp (initialState Nat) (Op.create 0 (List.replicate 16 2))).1 =
        Except.ok (KittyEvent.KittyCreated 0 0 ⟨List.replicate 16 2⟩) ∧
      (runOp (initialState Nat) (Op.create 0 (List.replicate 16 2))).2.kitties 0 0 =
        some ⟨List.replicate 16 2⟩ ∧
      (initialState Nat).kitties 0 0 = none ∧
      (runOp (initialState Nat) (Op.create 0 (List.replicate 16 2))).2.kitties 3 7 =
        (initialState Nat).kitties 3 7 := by
  have hres := successful_run_writes_one_fresh_record (initialState Nat)
    Reachable.init (Op.create 0 (List.replicate 16 2))
    (KittyEvent.KittyCreated 0 0 ⟨List.replicate 16 2⟩) rfl
  exact ⟨rfl, hres.1, hres.2.1, hres.2.2 3 7 (by decide)⟩

/-- Every run is a step of the relation: the relation is total. -/
theorem opStep_runOp {A : Type} [DecidableEq A] (s : KittiesState A)
    (op : Op A) : OpStep s op (runOp s op) := by
  cases op with
  | create sender dna =>
    simp only [runOp]
    by_cases hc : s.nextKittyId + 1 ≤ 4294967295
    · rw [create_succeeds s sender dna hc]
      exact OpStep.createOk s sender dna s.nextKittyId _
        (get_next_kitty_id_bump s hc)
    · rw [create_fails s sender dna hc]
      exact OpStep.createOverflow s sender dna KittyError.KittiesIdOverflow s
        (get_next_kitty_id_stuck s hc)
  | breed sender id1 id2 sel =>
    simp only [runOp]
    rcases hk1 : s.kitties sender id1 with _ | k1
    · rw [breed_none s sender id1 id2 sel (Or.inl hk1)]
      exact OpStep.breedMissing1 s sender id1 id2 sel hk1
    · rcases hk2 : s.kitties sender id2 with _ | k2
      · rw [breed_none s sender id1 id2 sel (Or.inr hk2)]
        exact OpStep.breedMissing2 s sender id1 id2 sel k1 hk1 hk2
      · by_cases hg : k1.gender = k2.gender
        · rw [breed_equal_gender s sender id1 id2 sel k1 k2 hk1 hk2 hg]
          exact OpStep.breedSameGender s sender id1 id2 sel k1 k2 hk1 hk2 hg
        · by_cases hc : s.nextKittyId + 1 ≤ 4294967295
          · rw [breed_succeeds s sender id1 id2 sel k1 k2 hk1 hk2 hg hc]
            exact OpStep.breedOk s sender id1 id2 sel k1 k2 s.nextKittyId _
              hk1 hk2 hg (get_next_kitty_id_bump s hc)
          · rw [breed_alloc_fails s sender id1 id2 sel k1 k2 hk1 hk2 hg hc]
            exact OpStep.breedOverflow s sender id1 id2 sel k1 k2
              KittyError.KittiesIdOverflow s hk1 hk2 hg
              (get_next_kitty_id_stuck s hc)

/-- C9: the execution relation is deterministic — two runs of the same
operation from the same state (same caller, arguments and random bytes,
i.e. same seed and extrinsic index) produce the same result, post-state
and event. -/
theorem op_execution_deterministic {A : Type} [DecidableEq A]
    (s : KittiesState A) (op : Op A)
    (out1 out2 : Except KittyError (KittyEvent A) × KittiesState A)
    (h1 : OpStep s op out1) (h2 : OpStep s op out2) : out1 = out2 := by
  cases h1 <;> cases h2 <;> simp_all

/-- C9 witness: an explicit derivation for a concrete `create` from genesis
agrees with the run of the same operation. -/
theorem op_execution_deterministic_witness :
    (Except.ok (KittyEvent.KittyCreated (0 : Nat) 0 ⟨List.replicate 16 2⟩),
        insertKitty { initialState Nat with nextKittyId := 1 } 0 0
          ⟨List.replicate 16 2⟩) =
      runOp (initialState Nat) (Op.create 0 (List.replicate 16 2)) :=
  op_execution_deterministic (initialState Nat)
    (Op.create 0 (List.replicate 16 2)) _ _
    (OpStep.createOk (initialState Nat) 0 (List.replicate 16 2) 0
      { initialState Nat with nextKittyId := 1 } rfl)
    (opStep_runOp (initialState Nat) (Op.create 0 (List.replicate 16 2)))

end Kitties
